import Mathlib

/-!
Verification of the doctopdf service: a single-endpoint HTTP service that
converts an uploaded DOCX/PPTX document to PDF by orchestrating four
outbound HTTP calls (OAuth2 token request, drive upload, PDF-format
download, drive delete).

The embedding below is a shallow model of the three Python source files:
main.py (the endpoint), helpers/token.py (get_access_token) and
helpers/upload.py (upload_file, convert_to_pdf, delete_file).

Outbound I/O is modelled by a World record giving, for each of the five
I/O actions a request can perform (token POST, request-body read, upload
PUT, convert GET, delete DELETE), either a transport-level failure
(Except.error (), modelling an exception raised by the HTTP client call
itself) or the response that came back.  Each embedded function returns
its Python result as an Except (exceptions are Except.error) paired with
the trace of I/O events it performed, in order.
-/

namespace DocToPdf

/-- A JSON object, as far as this service inspects one: a flat
string-to-string field map (res.json() in the Python source). -/
abbrev Json : Type := List (String × String)

/-- An HTTP response as seen by the service: its status code, the result
of attempting to parse its body as JSON (none models a json() decode
failure), and its raw body bytes (res.content). -/
structure Response where
  status : Nat
  jsonBody : Option Json
  content : List Nat
deriving DecidableEq

/-- Process configuration: the four environment variables read at import
time by token.py and upload.py. -/
structure Config where
  TENANT_ID : String
  CLIENT_ID : String
  CLIENT_SECRET : String
  GRAPH_USER_ID : String

/-- The outcomes of the five I/O actions a single request can perform.
Except.error () models the HTTP-client call (or the body read) itself
raising; Except.ok r models a response coming back, of any status. -/
structure World where
  tokenResult : Except Unit Response
  readResult : Except Unit (List Nat)
  uploadResult : Except Unit Response
  convertResult : Except Unit Response
  deleteResult : Except Unit Response

/-- Exceptions the embedded code can raise. -/
inductive PyErr where
  | httpStatusError (status : Nat)
  | transportError
  | jsonDecodeError
  | keyError (key : String)
  | readError
deriving DecidableEq

/-- One observable I/O event, with the request data the source attaches
to it. -/
inductive Event where
  | tokenRequest (url : String) (form : List (String × String))
  | readBody
  | uploadCall (url : String) (token : String) (filename : String) (content : List Nat)
  | convertCall (url : String) (token : String) (filename : String)
  | deleteCall (url : String) (token : String) (filename : String)
deriving DecidableEq

/-- The kind of an event, forgetting its payload. -/
inductive CallKind where
  | tok
  | read
  | up
  | conv
  | del
deriving DecidableEq

def Event.kind : Event → CallKind
  | .tokenRequest _ _ => .tok
  | .readBody => .read
  | .uploadCall _ _ _ _ => .up
  | .convertCall _ _ _ => .conv
  | .deleteCall _ _ _ => .del

/-- The kinds of the outbound network calls in a trace: the request-body
read is local, not an outbound call, so it is dropped. -/
def netKinds (tr : List Event) : List CallKind :=
  (tr.map Event.kind).filter (fun k => k ≠ CallKind.read)

/-- TOKEN_URL of token.py. -/
def TOKEN_URL (c : Config) : String :=
  "https://login.microsoftonline.com/" ++ c.TENANT_ID ++ "/oauth2/v2.0/token"

/-- BASE_URL of upload.py. -/
def BASE_URL (c : Config) : String :=
  "https://graph.microsoft.com/v1.0/users/" ++ c.GRAPH_USER_ID ++ "/drive"

/-- httpx success check used by raise_for_status: 2xx statuses. -/
def isSuccessStatus (n : Nat) : Bool := 200 ≤ n && n < 300

/-- res.raise_for_status(): raises HTTPStatusError on a non-2xx status. -/
def raise_for_status (r : Response) : Except PyErr Unit :=
  if isSuccessStatus r.status then .ok () else .error (.httpStatusError r.status)

/-- The form body of the token request in get_access_token. -/
def tokenForm (c : Config) : List (String × String) :=
  [("client_id", c.CLIENT_ID),
   ("client_secret", c.CLIENT_SECRET),
   ("grant_type", "client_credentials"),
   ("scope", "https://graph.microsoft.com/.default")]

/-- Python dict subscript j[k]: KeyError when the key is absent. -/
def lookupKey (j : Json) (k : String) : Except PyErr String :=
  match List.lookup k j with
  | some v => .ok v
  | none => .error (.keyError k)

/-- get_access_token of token.py: POST the client-credentials form to
TOKEN_URL, raise_for_status, then return res.json()["access_token"]. -/
def get_access_token (c : Config) (w : World) : Except PyErr String × List Event :=
  let ev := [Event.tokenRequest (TOKEN_URL c) (tokenForm c)]
  match w.tokenResult with
  | .error _ => (.error .transportError, ev)
  | .ok res =>
    match raise_for_status res with
    | .error e => (.error e, ev)
    | .ok _ =>
      match res.jsonBody with
      | none => (.error .jsonDecodeError, ev)
      | some j => (lookupKey j "access_token", ev)

/-- upload_file of upload.py: PUT the bytes to
BASE_URL/root:/filename:/content, raise_for_status, return res.json(). -/
def upload_file (c : Config) (w : World) (token filename : String)
    (content : List Nat) : Except PyErr Json × List Event :=
  let url := BASE_URL c ++ "/root:/" ++ filename ++ ":/content"
  let ev := [Event.uploadCall url token filename content]
  match w.uploadResult with
  | .error _ => (.error .transportError, ev)
  | .ok res =>
    match raise_for_status res with
    | .error e => (.error e, ev)
    | .ok _ =>
      match res.jsonBody with
      | none => (.error .jsonDecodeError, ev)
      | some j => (.ok j, ev)

/-- convert_to_pdf of upload.py: GET
BASE_URL/root:/filename:/content?format=pdf, raise_for_status, return
res.content unmodified. -/
def convert_to_pdf (c : Config) (w : World) (token filename : String) :
    Except PyErr (List Nat) × List Event :=
  let url := BASE_URL c ++ "/root:/" ++ filename ++ ":/content?format=pdf"
  let ev := [Event.convertCall url token filename]
  match w.convertResult with
  | .error _ => (.error .transportError, ev)
  | .ok res =>
    match raise_for_status res with
    | .error e => (.error e, ev)
    | .ok _ => (.ok res.content, ev)

/-- delete_file of upload.py: DELETE BASE_URL/root:/filename.  There is
no raise_for_status here, so a response of any status is accepted; only a
failure of the client call itself (transport error) raises. -/
def delete_file (c : Config) (w : World) (token filename : String) :
    Except PyErr Unit × List Event :=
  let url := BASE_URL c ++ "/root:/" ++ filename
  let ev := [Event.deleteCall url token filename]
  match w.deleteResult with
  | .error _ => (.error .transportError, ev)
  | .ok _ => (.ok (), ev)

/-- Python str.lower (on the ASCII range relevant here). -/
def py_lower (s : String) : String := String.mk (s.data.map Char.toLower)

/-- Python str.endswith: suffix test on the character sequence. -/
def py_endswith (s suffix : String) : Bool := List.isSuffixOf suffix.data s.data

/-- The validation test of main.py line 13:
file.filename.lower().endswith((".docx", ".pptx")). -/
def validFilename (filename : String) : Bool :=
  py_endswith (py_lower filename) ".docx" || py_endswith (py_lower filename) ".pptx"

/-- The response the endpoint produces on the success path, as
StreamingResponse builds it (status_code defaults to 200). -/
structure StreamingResp where
  status : Nat
  media_type : String
  headers : List (String × String)
  body : List Nat
deriving DecidableEq

/-- What a request terminates with: a streamed response, a raised
HTTPException (FastAPI renders it with the given status and detail), or
an unhandled exception (FastAPI renders a generic server error). -/
inductive Outcome where
  | success (resp : StreamingResp)
  | httpExc (status : Nat) (detail : String)
  | exc (e : PyErr)
deriving DecidableEq

/-- The convert endpoint of main.py: validate the extension, acquire a
token, read the body, then try upload-then-convert with an unconditional
delete in the finally block.  Python finally semantics: an exception
raised inside finally replaces the pending return value or exception. -/
def convert (c : Config) (w : World) (filename : String) : Outcome × List Event :=
  if validFilename filename = false then
    (.httpExc 400 "Only DOCX or PPTX supported", [])
  else
    match get_access_token c w with
    | (.error e, te) => (.exc e, te)
    | (.ok tok, te) =>
      match w.readResult with
      | .error _ => (.exc .readError, te ++ [Event.readBody])
      | .ok content =>
        match upload_file c w tok filename content with
        | (.error e, ue) =>
          match delete_file c w tok filename with
          | (.error d, de) => (.exc d, te ++ [Event.readBody] ++ ue ++ de)
          | (.ok _, de) => (.exc e, te ++ [Event.readBody] ++ ue ++ de)
        | (.ok _, ue) =>
          match convert_to_pdf c w tok filename, delete_file c w tok filename with
          | (_, ce), (.error d, de) =>
            (.exc d, te ++ [Event.readBody] ++ ue ++ ce ++ de)
          | (.error e, ce), (.ok _, de) =>
            (.exc e, te ++ [Event.readBody] ++ ue ++ ce ++ de)
          | (.ok pdf, ce), (.ok _, de) =>
            (.success
              { status := 200
                media_type := "application/pdf"
                headers :=
                  [("Content-Disposition", "attachment; filename=" ++ filename ++ ".pdf")]
                body := pdf },
             te ++ [Event.readBody] ++ ue ++ ce ++ de)

/-- The token step succeeds: a response came back, with a 2xx status, a
JSON body, and an access_token field. -/
def tokenOK (w : World) : Bool :=
  match w.tokenResult with
  | .error _ => false
  | .ok r =>
    isSuccessStatus r.status &&
      (Option.bind r.jsonBody (fun j => List.lookup "access_token" j)).isSome

/-- Reading the request body succeeds. -/
def readOK (w : World) : Bool :=
  match w.readResult with
  | .error _ => false
  | .ok _ => true

/-- The upload step succeeds: a response came back, with a 2xx status and
a JSON-parseable body. -/
def uploadOK (w : World) : Bool :=
  match w.uploadResult with
  | .error _ => false
  | .ok r => isSuccessStatus r.status && r.jsonBody.isSome

/-- The delete call returned some response (did not itself raise a
transport error). -/
def deleteNoRaise (w : World) : Bool :=
  match w.deleteResult with
  | .error _ => false
  | .ok _ => true

/-- The value (or exception) the token step produces, as a function of
the token call outcome alone. -/
def tokenValue (tokenR : Except Unit Response) : Except PyErr String :=
  match tokenR with
  | .error _ => .error .transportError
  | .ok res =>
    match raise_for_status res with
    | .error e => .error e
    | .ok _ =>
      match res.jsonBody with
      | none => .error .jsonDecodeError
      | some j => lookupKey j "access_token"

/-- The value (or exception) the upload step produces, as a function of
the upload call outcome alone. -/
def uploadValue (uploadR : Except Unit Response) : Except PyErr Json :=
  match uploadR with
  | .error _ => .error .transportError
  | .ok res =>
    match raise_for_status res with
    | .error e => .error e
    | .ok _ =>
      match res.jsonBody with
      | none => .error .jsonDecodeError
      | some j => .ok j

/-- The value (or exception) the convert step produces, as a function of
the convert call outcome alone. -/
def convertValue (convertR : Except Unit Response) : Except PyErr (List Nat) :=
  match convertR with
  | .error _ => .error .transportError
  | .ok res =>
    match raise_for_status res with
    | .error e => .error e
    | .ok _ => .ok res.content

/-- The endpoint outcome as an explicit function of the five I/O
outcomes; the delete call influences it only through whether the call
itself raised (delOk). -/
def outcomeModel (f : String) (tokenR : Except Unit Response)
    (readR : Except Unit (List Nat)) (uploadR convertR : Except Unit Response)
    (delOk : Bool) : Outcome :=
  if validFilename f = false then .httpExc 400 "Only DOCX or PPTX supported"
  else
    match tokenValue tokenR with
    | .error e => .exc e
    | .ok _ =>
      match readR with
      | .error _ => .exc .readError
      | .ok _ =>
        match uploadValue uploadR with
        | .error e => if delOk then .exc e else .exc .transportError
        | .ok _ =>
          if delOk then
            match convertValue convertR with
            | .error e => .exc e
            | .ok pdf =>
              .success
                { status := 200
                  media_type := "application/pdf"
                  headers :=
                    [("Content-Disposition", "attachment; filename=" ++ f ++ ".pdf")]
                  body := pdf }
          else .exc .transportError

lemma gat_trace (c : Config) (w : World) :
    (get_access_token c w).2 = [Event.tokenRequest (TOKEN_URL c) (tokenForm c)] := by
  cases hw : w.tokenResult with
  | error u => simp [get_access_token, hw]
  | ok r =>
    simp only [get_access_token, hw, raise_for_status]
    split <;> (try split) <;> simp

lemma gat_pair (c : Config) (w : World) :
    get_access_token c w =
      ((get_access_token c w).1, [Event.tokenRequest (TOKEN_URL c) (tokenForm c)]) := by
  rw [← gat_trace]

lemma up_trace (c : Config) (w : World) (t f : String) (b : List Nat) :
    (upload_file c w t f b).2 =
      [Event.uploadCall (BASE_URL c ++ "/root:/" ++ f ++ ":/content") t f b] := by
  cases hw : w.uploadResult with
  | error u => simp [upload_file, hw]
  | ok r =>
    simp only [upload_file, hw, raise_for_status]
    split <;> (try split) <;> simp

lemma up_pair (c : Config) (w : World) (t f : String) (b : List Nat) :
    upload_file c w t f b =
      ((upload_file c w t f b).1,
       [Event.uploadCall (BASE_URL c ++ "/root:/" ++ f ++ ":/content") t f b]) := by
  rw [← up_trace]

lemma cv_trace (c : Config) (w : World) (t f : String) :
    (convert_to_pdf c w t f).2 =
      [Event.convertCall (BASE_URL c ++ "/root:/" ++ f ++ ":/content?format=pdf") t f] := by
  cases hw : w.convertResult with
  | error u => simp [convert_to_pdf, hw]
  | ok r =>
    simp only [convert_to_pdf, hw, raise_for_status]
    split <;> simp

lemma cv_pair (c : Config) (w : World) (t f : String) :
    convert_to_pdf c w t f =
      ((convert_to_pdf c w t f).1,
       [Event.convertCall (BASE_URL c ++ "/root:/" ++ f ++ ":/content?format=pdf") t f]) := by
  rw [← cv_trace]

lemma del_trace (c : Config) (w : World) (t f : String) :
    (delete_file c w t f).2 = [Event.deleteCall (BASE_URL c ++ "/root:/" ++ f) t f] := by
  cases hw : w.deleteResult <;> simp [delete_file, hw]

lemma del_pair (c : Config) (w : World) (t f : String) :
    delete_file c w t f =
      ((delete_file c w t f).1,
       [Event.deleteCall (BASE_URL c ++ "/root:/" ++ f) t f]) := by
  rw [← del_trace]

lemma del_fst (c : Config) (w : World) (t f : String) :
    (delete_file c w t f).1 =
      (if deleteNoRaise w then Except.ok () else Except.error PyErr.transportError) := by
  cases hw : w.deleteResult <;> simp [delete_file, deleteNoRaise, hw]

lemma convert_run (c : Config) (w : World) (f : String) (h : validFilename f = true) :
    (∃ e, (get_access_token c w).1 = Except.error e ∧
      convert c w f = (Outcome.exc e, [Event.tokenRequest (TOKEN_URL c) (tokenForm c)])) ∨
    (∃ tok, (get_access_token c w).1 = Except.ok tok ∧
      ((w.readResult = Except.error () ∧
        convert c w f =
          (Outcome.exc PyErr.readError,
           [Event.tokenRequest (TOKEN_URL c) (tokenForm c), Event.readBody])) ∨
       (∃ content, w.readResult = Except.ok content ∧
        ((∃ e, (upload_file c w tok f content).1 = Except.error e ∧
          convert c w f =
            ((if deleteNoRaise w then Outcome.exc e else Outcome.exc PyErr.transportError),
             [Event.tokenRequest (TOKEN_URL c) (tokenForm c), Event.readBody,
              Event.uploadCall (BASE_URL c ++ "/root:/" ++ f ++ ":/content") tok f content,
              Event.deleteCall (BASE_URL c ++ "/root:/" ++ f) tok f])) ∨
         (∃ j, (upload_file c w tok f content).1 = Except.ok j ∧
          convert c w f =
            ((if deleteNoRaise w then
                (match (convert_to_pdf c w tok f).1 with
                 | Except.error e => Outcome.exc e
                 | Except.ok pdf =>
                   Outcome.success
                     { status := 200
                       media_type := "application/pdf"
                       headers :=
                         [("Content-Disposition",
                           "attachment; filename=" ++ f ++ ".pdf")]
                       body := pdf })
              else Outcome.exc PyErr.transportError),
             [Event.tokenRequest (TOKEN_URL c) (tokenForm c), Event.readBody,
              Event.uploadCall (BASE_URL c ++ "/root:/" ++ f ++ ":/content") tok f content,
              Event.convertCall (BASE_URL c ++ "/root:/" ++ f ++ ":/content?format=pdf") tok f,
              Event.deleteCall (BASE_URL c ++ "/root:/" ++ f) tok f])))))) := by
  unfold convert
  rw [if_neg (by simp [h]), gat_pair]
  cases hg : (get_access_token c w).1 with
  | error e => exact Or.inl ⟨e, rfl, rfl⟩
  | ok tok =>
    refine Or.inr ⟨tok, rfl, ?_⟩
    cases hr : w.readResult with
    | error u => exact Or.inl ⟨rfl, rfl⟩
    | ok content =>
      refine Or.inr ⟨content, rfl, ?_⟩
      dsimp only
      rw [up_pair]
      cases hu : (upload_file c w tok f content).1 with
      | error e =>
        refine Or.inl ⟨e, rfl, ?_⟩
        dsimp only
        rw [del_pair, del_fst]
        cases hd : deleteNoRaise w <;> simp
      | ok j =>
        refine Or.inr ⟨j, rfl, ?_⟩
        dsimp only
        rw [cv_pair, del_pair, del_fst]
        cases hd : deleteNoRaise w with
        | false => simp
        | true =>
          simp only [if_true]
          cases hc : (convert_to_pdf c w tok f).1 <;> simp

lemma gat_ok_iff (c : Config) (w : World) :
    (∃ t, (get_access_token c w).1 = Except.ok t) ↔ tokenOK w = true := by
  cases hw : w.tokenResult with
  | error u => simp [get_access_token, tokenOK, hw]
  | ok r =>
    simp only [get_access_token, tokenOK, hw, raise_for_status]
    by_cases hs : isSuccessStatus r.status <;> simp only [hs, if_true, if_false]
    · cases hj : r.jsonBody with
      | none => simp
      | some j =>
        simp only [lookupKey, Option.some_bind]
        cases hl : List.lookup "access_token" j <;> simp [hl]
    · simp

lemma up_ok_iff (c : Config) (w : World) (t f : String) (b : List Nat) :
    (∃ j, (upload_file c w t f b).1 = Except.ok j) ↔ uploadOK w = true := by
  cases hw : w.uploadResult with
  | error u => simp [upload_file, uploadOK, hw]
  | ok r =>
    simp only [upload_file, uploadOK, hw, raise_for_status]
    by_cases hs : isSuccessStatus r.status <;> simp only [hs, if_true, if_false] <;>
      cases hj : r.jsonBody <;> simp

lemma readOK_false_iff (w : World) : readOK w = false ↔ w.readResult = Except.error () := by
  cases hw : w.readResult with
  | error u => cases u; simp [readOK, hw]
  | ok b => simp [readOK, hw]

lemma readOK_true_iff (w : World) : readOK w = true ↔ ∃ b, w.readResult = Except.ok b := by
  cases hw : w.readResult with
  | error u => simp [readOK, hw]
  | ok b => simp [readOK, hw]

lemma cv_fst_ok (c : Config) (w : World) (t f : String) (r : Response)
    (hw : w.convertResult = Except.ok r) (hs : isSuccessStatus r.status = true) :
    (convert_to_pdf c w t f).1 = Except.ok r.content := by
  simp [convert_to_pdf, hw, raise_for_status, hs]

lemma valid_append_docx (s : String) : validFilename (s ++ ".docx") = true := by
  have hmap : (".docx".data.map Char.toLower) = ".docx".data := by decide
  have hl : (py_lower (s ++ ".docx")).data = s.data.map Char.toLower ++ ".docx".data := by
    simp [py_lower, String.data_append, hmap]
  have hsuf : List.isSuffixOf ".docx".data (py_lower (s ++ ".docx")).data = true := by
    rw [hl, List.isSuffixOf_iff_suffix]
    exact List.suffix_append _ _
  simp [validFilename, py_endswith, hsuf]

lemma valid_append_pptx (s : String) : validFilename (s ++ ".pptx") = true := by
  have hmap : (".pptx".data.map Char.toLower) = ".pptx".data := by decide
  have hl : (py_lower (s ++ ".pptx")).data = s.data.map Char.toLower ++ ".pptx".data := by
    simp [py_lower, String.data_append, hmap]
  have hsuf : List.isSuffixOf ".pptx".data (py_lower (s ++ ".pptx")).data = true := by
    rw [hl, List.isSuffixOf_iff_suffix]
    exact List.suffix_append _ _
  simp [validFilename, py_endswith, hsuf]

lemma trace_head_tok (c : Config) (w : World) (f : String) (h : validFilename f = true) :
    ((convert c w f).2.map Event.kind).head? = some CallKind.tok := by
  rcases convert_run c w f h with ⟨e, _, heq⟩ | ⟨tok, _, hb⟩
  · rw [heq]; rfl
  · rcases hb with ⟨_, heq⟩ | ⟨content, _, hb2⟩
    · rw [heq]; rfl
    · rcases hb2 with ⟨e, _, heq⟩ | ⟨j, _, heq⟩ <;> rw [heq] <;> rfl

/-- C2: a request whose filename does not case-insensitively end in .docx
or .pptx gets the 400 HTTPException with detail "Only DOCX or PPTX
supported", and its trace is empty: no token request and no drive
operation is performed. -/
theorem invalid_extension_rejected_without_calls (c : Config) (w : World) (f : String)
    (h : validFilename f = false) :
    convert c w f = (Outcome.httpExc 400 "Only DOCX or PPTX supported", []) := by
  unfold convert
  rw [if_pos h]

/-- Witness for C2 at the concrete input image.png. -/
theorem invalid_extension_rejected_without_calls_witness :
    convert ⟨"t", "cid", "sec", "uid"⟩
        ⟨Except.error (), Except.error (), Except.error (), Except.error (), Except.error ()⟩
        "image.png" =
      (Outcome.httpExc 400 "Only DOCX or PPTX supported", []) :=
  invalid_extension_rejected_without_calls _ _ _ (by decide)

/-- C10: validation only requires the lowercased filename to end in the
literal suffix ".docx" or ".pptx": a filename that is exactly the
extension is accepted, any preceding characters are accepted (so
"a.b.DOCX" is accepted) and such requests proceed to token acquisition
(their trace starts with the token request), while the empty filename is
rejected with the 400 validation response and no calls. -/
theorem validation_suffix_only (c : Config) (w : World) :
    validFilename ".docx" = true
    ∧ validFilename "a.b.DOCX" = true
    ∧ (∀ s, validFilename (s ++ ".docx") = true)
    ∧ (∀ s, validFilename (s ++ ".pptx") = true)
    ∧ validFilename "" = false
    ∧ convert c w "" = (Outcome.httpExc 400 "Only DOCX or PPTX supported", [])
    ∧ ((convert c w ".docx").2.map Event.kind).head? = some CallKind.tok
    ∧ ((convert c w "a.b.DOCX").2.map Event.kind).head? = some CallKind.tok := by
  refine ⟨by decide, by decide, valid_append_docx, valid_append_pptx, by decide, ?_, ?_, ?_⟩
  · unfold convert
    rw [if_pos (by decide)]
  · exact trace_head_tok c w ".docx" (by decide)
  · exact trace_head_tok c w "a.b.DOCX" (by decide)

/-- C1: for a valid filename the outbound calls happen in the order
token-request, upload, convert, delete: the network trace is always one
of [tok], [tok, up, del], [tok, up, conv, del]; once the upload was
attempted the delete fires exactly once on every exit path; and when the
upload step fails the convert call never happens while the delete still
fires exactly once. -/
theorem call_order_valid_filename (c : Config) (w : World) (f : String)
    (h : validFilename f = true) :
    (netKinds (convert c w f).2 = [CallKind.tok]
      ∨ netKinds (convert c w f).2 = [CallKind.tok, CallKind.up, CallKind.del]
      ∨ netKinds (convert c w f).2 =
          [CallKind.tok, CallKind.up, CallKind.conv, CallKind.del])
    ∧ (CallKind.up ∈ netKinds (convert c w f).2 →
        (netKinds (convert c w f).2).count CallKind.del = 1)
    ∧ (uploadOK w = false →
        CallKind.up ∈ netKinds (convert c w f).2 →
        CallKind.conv ∉ netKinds (convert c w f).2
          ∧ (netKinds (convert c w f).2).count CallKind.del = 1) := by
  rcases convert_run c w f h with ⟨e, he, heq⟩ | ⟨tok, htok, hb⟩
  · rw [heq]
    refine ⟨Or.inl (by simp [netKinds, Event.kind]), ?_, ?_⟩ <;>
      simp [netKinds, Event.kind]
  · rcases hb with ⟨hr, heq⟩ | ⟨content, hr, hb2⟩
    · rw [heq]
      refine ⟨Or.inl (by simp [netKinds, Event.kind]), ?_, ?_⟩ <;>
        simp [netKinds, Event.kind]
    · rcases hb2 with ⟨e, hu, heq⟩ | ⟨j, hu, heq⟩
      · rw [heq]
        refine ⟨Or.inr (Or.inl (by simp [netKinds, Event.kind])), ?_, ?_⟩ <;>
          simp [netKinds, Event.kind]
      · rw [heq]
        refine ⟨Or.inr (Or.inr (by simp [netKinds, Event.kind])), ?_, ?_⟩
        · simp [netKinds, Event.kind]
        · intro hfail
          have hok : uploadOK w = true := (up_ok_iff c w tok f content).mp ⟨j, hu⟩
          rw [hok] at hfail
          exact absurd hfail (by simp)

/-- Witness for C1 on a run where every step succeeds. -/
theorem call_order_valid_filename_witness :
    netKinds (convert ⟨"t", "cid", "sec", "uid"⟩
        ⟨Except.ok ⟨200, some [("access_token", "tok")], []⟩, Except.ok [88],
         Except.ok ⟨201, some [("id", "1")], []⟩, Except.ok ⟨200, none, [1, 2, 3]⟩,
         Except.ok ⟨204, none, []⟩⟩ "report.docx").2 = [CallKind.tok]
      ∨ netKinds (convert ⟨"t", "cid", "sec", "uid"⟩
        ⟨Except.ok ⟨200, some [("access_token", "tok")], []⟩, Except.ok [88],
         Except.ok ⟨201, some [("id", "1")], []⟩, Except.ok ⟨200, none, [1, 2, 3]⟩,
         Except.ok ⟨204, none, []⟩⟩ "report.docx").2 =
          [CallKind.tok, CallKind.up, CallKind.del]
      ∨ netKinds (convert ⟨"t", "cid", "sec", "uid"⟩
        ⟨Except.ok ⟨200, some [("access_token", "tok")], []⟩, Except.ok [88],
         Except.ok ⟨201, some [("id", "1")], []⟩, Except.ok ⟨200, none, [1, 2, 3]⟩,
         Except.ok ⟨204, none, []⟩⟩ "report.docx").2 =
          [CallKind.tok, CallKind.up, CallKind.conv, CallKind.del] :=
  (call_order_valid_filename ⟨"t", "cid", "sec", "uid"⟩
    ⟨Except.ok ⟨200, some [("access_token", "tok")], []⟩, Except.ok [88],
     Except.ok ⟨201, some [("id", "1")], []⟩, Except.ok ⟨200, none, [1, 2, 3]⟩,
     Except.ok ⟨204, none, []⟩⟩ "report.docx" (by decide)).1

/-- C6: if token acquisition fails with exception e, the request
terminates with e before any drive operation: the trace is exactly the
token request, so no upload and no delete call is made. -/
theorem token_failure_terminal (c : Config) (w : World) (f : String) (e : PyErr)
    (hf : validFilename f = true)
    (he : (get_access_token c w).1 = Except.error e) :
    convert c w f = (Outcome.exc e, [Event.tokenRequest (TOKEN_URL c) (tokenForm c)]) := by
  unfold convert
  rw [if_neg (by simp [hf]), gat_pair, he]

/-- Witness for C6: a transport failure of the token request on
report.docx. -/
theorem token_failure_terminal_witness :
    convert ⟨"t", "cid", "sec", "uid"⟩
        ⟨Except.error (), Except.ok [88], Except.ok ⟨201, some [("id", "1")], []⟩,
         Except.ok ⟨200, none, [1, 2, 3]⟩, Except.ok ⟨204, none, []⟩⟩ "report.docx" =
      (Outcome.exc PyErr.transportError,
       [Event.tokenRequest (TOKEN_URL ⟨"t", "cid", "sec", "uid"⟩)
          (tokenForm ⟨"t", "cid", "sec", "uid"⟩)]) :=
  token_failure_terminal _ _ _ _ (by decide) rfl

lemma gat_fst (c : Config) (w : World) :
    (get_access_token c w).1 = tokenValue w.tokenResult := by
  cases hw : w.tokenResult with
  | error u => simp [get_access_token, tokenValue, hw]
  | ok r =>
    simp only [get_access_token, tokenValue, hw]
    split <;> (try split) <;> rfl

lemma up_fst (c : Config) (w : World) (t f : String) (b : List Nat) :
    (upload_file c w t f b).1 = uploadValue w.uploadResult := by
  cases hw : w.uploadResult with
  | error u => simp [upload_file, uploadValue, hw]
  | ok r =>
    simp only [upload_file, uploadValue, hw]
    split <;> (try split) <;> rfl

lemma cv_fst (c : Config) (w : World) (t f : String) :
    (convert_to_pdf c w t f).1 = convertValue w.convertResult := by
  cases hw : w.convertResult with
  | error u => simp [convert_to_pdf, convertValue, hw]
  | ok r =>
    simp only [convert_to_pdf, convertValue, hw]
    split <;> rfl

lemma convert_fst_eq (c : Config) (w : World) (f : String) :
    (convert c w f).1 =
      outcomeModel f w.tokenResult w.readResult w.uploadResult w.convertResult
        (deleteNoRaise w) := by
  by_cases hv : validFilename f = true
  · rcases convert_run c w f hv with ⟨e, he, heq⟩ | ⟨tok, ht, hb⟩
    · rw [gat_fst] at he
      rw [heq]
      simp [outcomeModel, hv, he]
    · rw [gat_fst] at ht
      rcases hb with ⟨hr, heq⟩ | ⟨content, hr, hb2⟩
      · rw [heq]
        simp [outcomeModel, hv, ht, hr]
      · rcases hb2 with ⟨e, hu, heq⟩ | ⟨j, hu, heq⟩
        · rw [up_fst] at hu
          rw [heq]
          simp [outcomeModel, hv, ht, hr, hu]
        · rw [up_fst] at hu
          rw [heq, cv_fst]
          cases hd : deleteNoRaise w <;>
            simp [outcomeModel, hv, ht, hr, hu, hd]
  · have hv2 : validFilename f = false := by revert hv; cases validFilename f <;> simp
    unfold convert
    rw [if_pos hv2]
    simp [outcomeModel, hv2]

/-- C3 as stated is refuted: a transport-level failure of the delete call
is not swallowed.  With identical worlds in which token, read, upload and
convert all succeed, a delete call that itself raises turns the success
response into the propagated delete exception, so the overall response
does not reflect the convert step. -/
theorem delete_transport_error_changes_outcome :
    (convert ⟨"t", "cid", "sec", "uid"⟩
        ⟨Except.ok ⟨200, some [("access_token", "tok")], []⟩, Except.ok [88],
         Except.ok ⟨201, some [("id", "1")], []⟩, Except.ok ⟨200, none, [1, 2, 3]⟩,
         Except.error ()⟩ "report.docx").1 = Outcome.exc PyErr.transportError
    ∧ (convert ⟨"t", "cid", "sec", "uid"⟩
        ⟨Except.ok ⟨200, some [("access_token", "tok")], []⟩, Except.ok [88],
         Except.ok ⟨201, some [("id", "1")], []⟩, Except.ok ⟨200, none, [1, 2, 3]⟩,
         Except.ok ⟨204, none, []⟩⟩ "report.docx").1 =
      Outcome.success
        { status := 200
          media_type := "application/pdf"
          headers := [("Content-Disposition", "attachment; filename=report.docx.pdf")]
          body := [1, 2, 3] } :=
  ⟨by decide, by decide⟩

/-- C3 amended: a delete call that yields a response never raises — any
response status, success or not, is swallowed and delete_file returns
normally — and the endpoint outcome is then determined by the earlier
steps alone: replacing the delete response by any other response leaves
the outcome unchanged.  (A transport-level exception raised by the
delete call itself does, however, propagate.) -/
theorem delete_response_failures_swallowed (c : Config) (w : World) (f t : String)
    (r : Response) (h : w.deleteResult = Except.ok r) :
    (delete_file c w t f).1 = Except.ok ()
    ∧ ∀ r2, (convert c { w with deleteResult := Except.ok r2 } f).1 =
        (convert c w f).1 := by
  constructor
  · simp [delete_file, h]
  · intro r2
    rw [convert_fst_eq, convert_fst_eq]
    have h1 : deleteNoRaise { w with deleteResult := Except.ok r2 } = true := rfl
    have h2 : deleteNoRaise w = true := by simp [deleteNoRaise, h]
    rw [h1, h2]

/-- Witness for the amended C3: a 404 delete response is swallowed, and
swapping it for a 500 response leaves the outcome unchanged. -/
theorem delete_response_failures_swallowed_witness :
    (delete_file ⟨"t", "cid", "sec", "uid"⟩
        ⟨Except.ok ⟨200, some [("access_token", "tok")], []⟩, Except.ok [88],
         Except.ok ⟨201, some [("id", "1")], []⟩, Except.ok ⟨200, none, [1, 2, 3]⟩,
         Except.ok ⟨404, none, []⟩⟩ "tok" "report.docx").1 = Except.ok ()
    ∧ (convert ⟨"t", "cid", "sec", "uid"⟩
        { (⟨Except.ok ⟨200, some [("access_token", "tok")], []⟩, Except.ok [88],
           Except.ok ⟨201, some [("id", "1")], []⟩, Except.ok ⟨200, none, [1, 2, 3]⟩,
           Except.ok ⟨404, none, []⟩⟩ : World) with
          deleteResult := Except.ok ⟨500, none, []⟩ } "report.docx").1 =
      (convert ⟨"t", "cid", "sec", "uid"⟩
        ⟨Except.ok ⟨200, some [("access_token", "tok")], []⟩, Except.ok [88],
         Except.ok ⟨201, some [("id", "1")], []⟩, Except.ok ⟨200, none, [1, 2, 3]⟩,
         Except.ok ⟨404, none, []⟩⟩ "report.docx").1 :=
  ⟨(delete_response_failures_swallowed _ _ "report.docx" "tok" ⟨404, none, []⟩ rfl).1,
   (delete_response_failures_swallowed _ _ "report.docx" "tok" ⟨404, none, []⟩ rfl).2
     ⟨500, none, []⟩⟩

/-- C4: on a success path the endpoint returns the streamed response:
status 200, media type application/pdf, a Content-Disposition attachment
header naming the original filename with ".pdf" appended, and a body
equal to exactly the bytes the convert step returned, passed through
unmodified (no check that they form a well-formed PDF). -/
theorem success_path_response (c : Config) (w : World) (f : String) (rc : Response)
    (hf : validFilename f = true) (htok : tokenOK w = true) (hread : readOK w = true)
    (hup : uploadOK w = true) (hcv : w.convertResult = Except.ok rc)
    (hst : isSuccessStatus rc.status = true) (hdel : deleteNoRaise w = true) :
    (convert c w f).1 =
      Outcome.success
        { status := 200
          media_type := "application/pdf"
          headers := [("Content-Disposition", "attachment; filename=" ++ f ++ ".pdf")]
          body := rc.content } := by
  obtain ⟨t0, ht0⟩ := (gat_ok_iff c w).mpr htok
  rw [gat_fst] at ht0
  obtain ⟨b0, hb0⟩ := (readOK_true_iff w).mp hread
  obtain ⟨j0, hj0⟩ := (up_ok_iff c w "" f []).mpr hup
  rw [up_fst] at hj0
  have hcvv : convertValue w.convertResult = Except.ok rc.content := by
    simp [convertValue, hcv, raise_for_status, hst]
  rw [convert_fst_eq]
  simp [outcomeModel, hf, ht0, hb0, hj0, hdel, hcvv]

/-- Witness for C4: report.docx with uploaded content b"X" and convert
step returning the bytes [1, 2, 3]. -/
theorem success_path_response_witness :
    (convert ⟨"t", "cid", "sec", "uid"⟩
        ⟨Except.ok ⟨200, some [("access_token", "tok")], []⟩, Except.ok [88],
         Except.ok ⟨201, some [("id", "1")], []⟩, Except.ok ⟨200, none, [1, 2, 3]⟩,
         Except.ok ⟨204, none, []⟩⟩ "report.docx").1 =
      Outcome.success
        { status := 200
          media_type := "application/pdf"
          headers := [("Content-Disposition", "attachment; filename=report.docx.pdf")]
          body := [1, 2, 3] } :=
  success_path_response ⟨"t", "cid", "sec", "uid"⟩
    ⟨Except.ok ⟨200, some [("access_token", "tok")], []⟩, Except.ok [88],
     Except.ok ⟨201, some [("id", "1")], []⟩, Except.ok ⟨200, none, [1, 2, 3]⟩,
     Except.ok ⟨204, none, []⟩⟩ "report.docx" ⟨200, none, [1, 2, 3]⟩
    (by decide) (by decide) (by decide) (by decide) rfl (by decide) (by decide)

/-- C5: get_access_token issues exactly one form-encoded POST to the
token URL carrying client_id, client_secret, grant_type fixed to
client_credentials, and the fixed Graph default scope; it returns
Except.ok t exactly when a response arrived with a 2xx status and a JSON
body whose access_token field is t; every other outcome (transport
error, non-2xx status, JSON parse failure, missing field) is an error,
never a silent default. -/
theorem token_request_shape_and_result (c : Config) (w : World) :
    (get_access_token c w).2 =
      [Event.tokenRequest (TOKEN_URL c)
        [("client_id", c.CLIENT_ID), ("client_secret", c.CLIENT_SECRET),
         ("grant_type", "client_credentials"),
         ("scope", "https://graph.microsoft.com/.default")]]
    ∧ (∀ r j t, w.tokenResult = Except.ok r → isSuccessStatus r.status = true →
        r.jsonBody = some j → List.lookup "access_token" j = some t →
        (get_access_token c w).1 = Except.ok t)
    ∧ (∀ t, (get_access_token c w).1 = Except.ok t →
        ∃ r j, w.tokenResult = Except.ok r ∧ isSuccessStatus r.status = true ∧
          r.jsonBody = some j ∧ List.lookup "access_token" j = some t) := by
  refine ⟨gat_trace c w, ?_, ?_⟩
  · intro r j t hw hs hj hl
    simp [get_access_token, hw, raise_for_status, hs, hj, lookupKey, hl]
  · intro t ht
    cases hw : w.tokenResult with
    | error u => simp [get_access_token, hw] at ht
    | ok r =>
      by_cases hs : isSuccessStatus r.status = true
      · cases hj : r.jsonBody with
        | none => simp [get_access_token, hw, raise_for_status, hs, hj] at ht
        | some j =>
          cases hl : List.lookup "access_token" j with
          | none =>
            simp [get_access_token, hw, raise_for_status, hs, hj, lookupKey, hl] at ht
          | some v =>
            have hv : v = t := by
              simpa [get_access_token, hw, raise_for_status, hs, hj, lookupKey, hl]
                using ht
            exact ⟨r, j, rfl, hs, hj, by rw [hl, hv]⟩
      · simp [get_access_token, hw, raise_for_status, hs] at ht

/-- Witness for C5 on a concrete successful token exchange. -/
theorem token_request_shape_and_result_witness :
    (get_access_token ⟨"t", "cid", "sec", "uid"⟩
        ⟨Except.ok ⟨200, some [("access_token", "tok")], []⟩, Except.ok [88],
         Except.ok ⟨201, some [("id", "1")], []⟩, Except.ok ⟨200, none, [1, 2, 3]⟩,
         Except.ok ⟨204, none, []⟩⟩).1 = Except.ok "tok" :=
  (token_request_shape_and_result ⟨"t", "cid", "sec", "uid"⟩
      ⟨Except.ok ⟨200, some [("access_token", "tok")], []⟩, Except.ok [88],
       Except.ok ⟨201, some [("id", "1")], []⟩, Except.ok ⟨200, none, [1, 2, 3]⟩,
       Except.ok ⟨204, none, []⟩⟩).2.1
    ⟨200, some [("access_token", "tok")], []⟩ [("access_token", "tok")] "tok"
    rfl (by decide) rfl (by decide)

/-- C7: every drive operation a request performs addresses the original
filename with the same acquired bearer token, at the documented paths:
PUT base/root:/filename:/content for upload, GET
base/root:/filename:/content?format=pdf for convert, and DELETE
base/root:/filename for cleanup. -/
theorem drive_ops_same_filename_token_urls (c : Config) (w : World) (f tok : String)
    (hf : validFilename f = true)
    (ht : (get_access_token c w).1 = Except.ok tok) :
    (∀ u t2 f2 b, Event.uploadCall u t2 f2 b ∈ (convert c w f).2 →
        u = BASE_URL c ++ "/root:/" ++ f ++ ":/content" ∧ t2 = tok ∧ f2 = f)
    ∧ (∀ u t2 f2, Event.convertCall u t2 f2 ∈ (convert c w f).2 →
        u = BASE_URL c ++ "/root:/" ++ f ++ ":/content?format=pdf" ∧ t2 = tok ∧ f2 = f)
    ∧ (∀ u t2 f2, Event.deleteCall u t2 f2 ∈ (convert c w f).2 →
        u = BASE_URL c ++ "/root:/" ++ f ∧ t2 = tok ∧ f2 = f) := by
  rcases convert_run c w f hf with ⟨e, he, heq⟩ | ⟨tok2, ht2, hb⟩
  · rw [ht] at he
    exact absurd he (by simp)
  · rw [ht] at ht2
    injection ht2 with hteq
    subst hteq
    rcases hb with ⟨hr, heq⟩ | ⟨content, hr, hb2⟩
    · rw [heq]
      refine ⟨?_, ?_, ?_⟩
      · intro u t2 f2 b hmem
        simp at hmem
      · intro u t2 f2 hmem
        simp at hmem
      · intro u t2 f2 hmem
        simp at hmem
    · rcases hb2 with ⟨e, hu, heq⟩ | ⟨j, hu, heq⟩ <;> rw [heq]
      · refine ⟨?_, ?_, ?_⟩
        · intro u t2 f2 b hmem
          simp at hmem
          tauto
        · intro u t2 f2 hmem
          simp at hmem
        · intro u t2 f2 hmem
          simp at hmem
          tauto
      · refine ⟨?_, ?_, ?_⟩
        · intro u t2 f2 b hmem
          simp at hmem
          tauto
        · intro u t2 f2 hmem
          simp at hmem
          tauto
        · intro u t2 f2 hmem
          simp at hmem
          tauto

/-- Witness for C7 on a run where every step succeeds, at the concrete
upload event of its trace. -/
theorem drive_ops_same_filename_token_urls_witness :
    "https://graph.microsoft.com/v1.0/users/uid/drive/root:/report.docx:/content" =
      BASE_URL ⟨"t", "cid", "sec", "uid"⟩ ++ "/root:/" ++ "report.docx" ++ ":/content"
    ∧ "tok" = "tok" ∧ "report.docx" = "report.docx" :=
  (drive_ops_same_filename_token_urls ⟨"t", "cid", "sec", "uid"⟩
      ⟨Except.ok ⟨200, some [("access_token", "tok")], []⟩, Except.ok [88],
       Except.ok ⟨201, some [("id", "1")], []⟩, Except.ok ⟨200, none, [1, 2, 3]⟩,
       Except.ok ⟨204, none, []⟩⟩ "report.docx" "tok" (by decide) rfl).1
    "https://graph.microsoft.com/v1.0/users/uid/drive/root:/report.docx:/content"
    "tok" "report.docx" [88] (by decide)

/-- C8: upload_file parses the upload response body as JSON and returns
the parsed value, so an upload response with a 2xx status but a non-JSON
body makes the upload step raise even though the remote upload
succeeded; the pipeline then aborts before convert while delete still
fires (trace [tok, up, del]). -/
theorem upload_parses_json_response (c : Config) (w : World) (f tok : String)
    (b : List Nat) (r : Response)
    (hw : w.uploadResult = Except.ok r) (hs : isSuccessStatus r.status = true) :
    (∀ j, r.jsonBody = some j → (upload_file c w tok f b).1 = Except.ok j)
    ∧ (r.jsonBody = none →
        (upload_file c w tok f b).1 = Except.error PyErr.jsonDecodeError
        ∧ (validFilename f = true → tokenOK w = true → readOK w = true →
            deleteNoRaise w = true →
            (convert c w f).1 = Outcome.exc PyErr.jsonDecodeError
            ∧ netKinds (convert c w f).2 =
                [CallKind.tok, CallKind.up, CallKind.del])) := by
  constructor
  · intro j hj
    simp [upload_file, hw, raise_for_status, hs, hj]
  · intro hj
    have hupv : uploadValue w.uploadResult = Except.error PyErr.jsonDecodeError := by
      simp [uploadValue, hw, raise_for_status, hs, hj]
    refine ⟨by rw [up_fst, hupv], ?_⟩
    intro hf htok hread hdel
    rcases convert_run c w f hf with ⟨e, he, heq⟩ | ⟨tok2, ht2, hb⟩
    · obtain ⟨t0, ht0⟩ := (gat_ok_iff c w).mpr htok
      rw [ht0] at he
      exact absurd he (by simp)
    · rcases hb with ⟨hr, heq⟩ | ⟨content, hr, hb2⟩
      · have hfa := (readOK_false_iff w).mpr hr
        rw [hfa] at hread
        exact absurd hread (by simp)
      · rcases hb2 with ⟨e, hu, heq⟩ | ⟨j2, hu, heq⟩
        · rw [up_fst, hupv] at hu
          injection hu with heeq
          subst heeq
          rw [heq]
          constructor
          · simp [hdel]
          · simp [netKinds, Event.kind]
        · rw [up_fst, hupv] at hu
          exact absurd hu (by simp)

/-- Witness for C8: a 200 upload response whose body is not JSON aborts
the request with the JSON decode error after token, upload and delete. -/
theorem upload_parses_json_response_witness :
    (upload_file ⟨"t", "cid", "sec", "uid"⟩
        ⟨Except.ok ⟨200, some [("access_token", "tok")], []⟩, Except.ok [88],
         Except.ok ⟨200, none, []⟩, Except.ok ⟨200, none, [1, 2, 3]⟩,
         Except.ok ⟨204, none, []⟩⟩ "tok" "report.docx" [88]).1 =
      Except.error PyErr.jsonDecodeError
    ∧ (convert ⟨"t", "cid", "sec", "uid"⟩
        ⟨Except.ok ⟨200, some [("access_token", "tok")], []⟩, Except.ok [88],
         Except.ok ⟨200, none, []⟩, Except.ok ⟨200, none, [1, 2, 3]⟩,
         Except.ok ⟨204, none, []⟩⟩ "report.docx").1 =
      Outcome.exc PyErr.jsonDecodeError := by
  have h := upload_parses_json_response ⟨"t", "cid", "sec", "uid"⟩
    ⟨Except.ok ⟨200, some [("access_token", "tok")], []⟩, Except.ok [88],
     Except.ok ⟨200, none, []⟩, Except.ok ⟨200, none, [1, 2, 3]⟩,
     Except.ok ⟨204, none, []⟩⟩ "report.docx" "tok" [88] ⟨200, none, []⟩ rfl (by decide)
  exact ⟨(h.2 rfl).1, ((h.2 rfl).2 (by decide) (by decide) (by decide) (by decide)).1⟩

/-- C9: within a valid request the token request always comes first and
the body read (if reached) second, so the token is acquired before the
uploaded content is read; and if the body read fails after a successful
token acquisition, the request aborts with the read error having
performed no drive operation at all. -/
theorem token_acquired_before_body_read (c : Config) (w : World) (f : String)
    (hf : validFilename f = true) :
    ((convert c w f).2.map Event.kind = [CallKind.tok]
      ∨ ∃ rest, (convert c w f).2.map Event.kind = CallKind.tok :: CallKind.read :: rest)
    ∧ (tokenOK w = true → readOK w = false →
        (convert c w f).1 = Outcome.exc PyErr.readError
        ∧ (convert c w f).2.map Event.kind = [CallKind.tok, CallKind.read]) := by
  rcases convert_run c w f hf with ⟨e, he, heq⟩ | ⟨tok, ht, hb⟩
  · constructor
    · left
      rw [heq]
      rfl
    · intro htok _
      obtain ⟨t0, ht0⟩ := (gat_ok_iff c w).mpr htok
      rw [ht0] at he
      exact absurd he (by simp)
  · rcases hb with ⟨hr, heq⟩ | ⟨content, hr, hb2⟩
    · constructor
      · right
        exact ⟨[], by rw [heq]; rfl⟩
      · intro _ _
        rw [heq]
        exact ⟨rfl, rfl⟩
    · have hrt : readOK w = true := (readOK_true_iff w).mpr ⟨content, hr⟩
      constructor
      · right
        rcases hb2 with ⟨e, hu, heq⟩ | ⟨j, hu, heq⟩
        · exact ⟨[CallKind.up, CallKind.del], by rw [heq]; rfl⟩
        · exact ⟨[CallKind.up, CallKind.conv, CallKind.del], by rw [heq]; rfl⟩
      · intro _ hrf
        rw [hrt] at hrf
        exact absurd hrf (by simp)

/-- Witness for C9: token succeeds, the body read raises, and the trace
is exactly the token request followed by the read attempt. -/
theorem token_acquired_before_body_read_witness :
    (convert ⟨"t", "cid", "sec", "uid"⟩
        ⟨Except.ok ⟨200, some [("access_token", "tok")], []⟩, Except.error (),
         Except.ok ⟨201, some [("id", "1")], []⟩, Except.ok ⟨200, none, [1, 2, 3]⟩,
         Except.ok ⟨204, none, []⟩⟩ "report.docx").1 = Outcome.exc PyErr.readError
    ∧ (convert ⟨"t", "cid", "sec", "uid"⟩
        ⟨Except.ok ⟨200, some [("access_token", "tok")], []⟩, Except.error (),
         Except.ok ⟨201, some [("id", "1")], []⟩, Except.ok ⟨200, none, [1, 2, 3]⟩,
         Except.ok ⟨204, none, []⟩⟩ "report.docx").2.map Event.kind =
        [CallKind.tok, CallKind.read] :=
  (token_acquired_before_body_read ⟨"t", "cid", "sec", "uid"⟩
      ⟨Except.ok ⟨200, some [("access_token", "tok")], []⟩, Except.error (),
       Except.ok ⟨201, some [("id", "1")], []⟩, Except.ok ⟨200, none, [1, 2, 3]⟩,
       Except.ok ⟨204, none, []⟩⟩ "report.docx" (by decide)).2 (by decide) (by decide)

end DocToPdf
